import Mathlib

/-!
Verification of the ChocoCraft front-end interaction layer (src/js/main.js)
against its specification.

The JavaScript source is shallowly embedded: each routine the claims refer to
becomes an executable Lean definition over an explicit state type.  DOM
mutation is modelled as explicit state passing; timer scheduling is modelled
as returned (delay, action-data) values; `console.warn` logging is modelled as
a returned list of messages; JS numbers appearing in geometry computations are
modelled as rationals (all arithmetic the claims touch is exact in IEEE
doubles: additions, halving, max).
-/

namespace ChocoCraft

/-! ### Configuration constants (main.js, `CONFIG`, lines 14-39) -/

/-- CONFIG.ANIMATION.DURATION.PARTICLE_LIFE -/
def PARTICLE_LIFE : Nat := 1000

/-- CONFIG.ANIMATION.DURATION.RIPPLE_LIFE -/
def RIPPLE_LIFE : Nat := 600

/-- CONFIG.PARTICLES.COUNT -/
def PARTICLES_COUNT : Nat := 8

/-- Auto-play interval passed to setInterval in startAutoPlay (line 740). -/
def AUTOPLAY_INTERVAL : Nat := 2500

/-! ### Carousel state machine (TestimonialCarouselController, lines 651-752)

The controller's mutable state relevant to claims C1-C3 is `this.currentIndex`;
`this.slides.length` is fixed after `init` and is passed as the `count`
parameter.  `init` returns early when `slides.length === 0`, so `count ≥ 1`
whenever the machine runs. -/

structure CarouselState where
  currentIndex : Nat
deriving DecidableEq, Repr

/-- Initial state: `this.currentIndex = 0` (line 653). -/
def initialState : CarouselState := ⟨0⟩

/-- goToSlide (lines 699-702): `this.currentIndex = index` — no clamping. -/
def goToSlide (_s : CarouselState) (index : Nat) : CarouselState :=
  ⟨index⟩

/-- nextSlide (lines 707-710):
`this.currentIndex = (this.currentIndex + 1) % this.slides.length`. -/
def nextSlide (count : Nat) (s : CarouselState) : CarouselState :=
  ⟨(s.currentIndex + 1) % count⟩

/-- The two transitions of the carousel state machine: `goToSlide i`
(indicator click, lines 681-685) and `advance` (timer tick, line 739). -/
inductive Transition where
  | goTo (i : Nat)
  | advance
deriving DecidableEq, Repr

def applyTransition (count : Nat) (s : CarouselState) : Transition → CarouselState
  | Transition.goTo i => goToSlide s i
  | Transition.advance => nextSlide count s

def runTransitions (count : Nat) (s : CarouselState) (ts : List Transition) : CarouselState :=
  ts.foldl (applyTransition count) s

/-- The arguments `goToSlide` can actually be called with: the dot indicators
are index-aligned with the slides (spec §3), so a dot click passes an index
in `[0, count)`.  `advance` takes no argument. -/
def validTransition (count : Nat) : Transition → Bool
  | Transition.goTo i => i < count
  | Transition.advance => true

/-- updateCarousel, per-slide branch (lines 716-726).  The classList of slide
`idx` after the re-render pass: all three classes are removed, then the
`if / else if / else if` chain adds at most one of them.  The modular
arithmetic is carried out in `Int`, matching JS number semantics
(`(cur - 1 + count) % count` with `cur - 1` possibly negative; both operands
of `%` are nonnegative here, where JS `%` agrees with `Int.emod`). -/
def slideClasses (count cur idx : Nat) : List String :=
  if idx = cur then ["active"]
  else if (idx : Int) = ((cur : Int) - 1 + (count : Int)) % (count : Int) then ["prev"]
  else if (idx : Int) = ((cur : Int) + 1) % (count : Int) then ["next"]
  else []

/-- updateCarousel (lines 715-731): the class lists of all `count` slides. -/
def updateCarousel (count cur : Nat) : List (List String) :=
  (List.range count).map (slideClasses count cur)

/-- updateCarousel, per-dot branch (lines 728-730):
`dot.classList.toggle('active', index === this.currentIndex)`. -/
def dotActive (cur idx : Nat) : Bool := idx == cur

/-! Closed forms of the `prev` / `next` index arithmetic, used in proofs. -/

def prevIdx (count cur : Nat) : Nat := if cur = 0 then count - 1 else cur - 1

def nextIdx (count cur : Nat) : Nat := if cur + 1 = count then 0 else cur + 1

/-! ### Auto-play timers (startAutoPlay / stopAutoPlay, lines 736-751)

The browser's interval table is modelled explicitly: `setInterval` hands out
fresh positive ids (browsers never return 0, so the JS truthiness test
`if (this.autoPlayInterval)` coincides with the non-null test modelled by the
`Option` match) and `clearInterval id` removes `id` from the table. -/

structure TimerSystem where
  nextId : Nat
  active : List Nat
deriving DecidableEq, Repr

def setIntervalSys (s : TimerSystem) : Nat × TimerSystem :=
  (s.nextId, ⟨s.nextId + 1, s.nextId :: s.active⟩)

def clearIntervalSys (s : TimerSystem) (id : Nat) : TimerSystem :=
  ⟨s.nextId, s.active.erase id⟩

/-- The controller state relevant to C4: the interval table plus
`this.autoPlayInterval` (null modelled as `none`). -/
structure AutoPlayState where
  sys : TimerSystem
  autoPlayInterval : Option Nat
deriving DecidableEq, Repr

/-- Lines 653-656: `this.autoPlayInterval = null`; no timers exist yet. -/
def initialAutoPlay : AutoPlayState := ⟨⟨1, []⟩, none⟩

/-- stopAutoPlay (lines 746-751):
`if (this.autoPlayInterval) { clearInterval(this.autoPlayInterval); this.autoPlayInterval = null; }`. -/
def stopAutoPlay (c : AutoPlayState) : AutoPlayState :=
  match c.autoPlayInterval with
  | some id => ⟨clearIntervalSys c.sys id, none⟩
  | none => c

/-- startAutoPlay (lines 736-741): `this.stopAutoPlay();
this.autoPlayInterval = setInterval(() => this.nextSlide(), 2500);`. -/
def startAutoPlay (c : AutoPlayState) : AutoPlayState :=
  let c1 := stopAutoPlay c
  let r := setIntervalSys c1.sys
  ⟨r.2, some r.1⟩

inductive AutoPlayOp where
  | start
  | stop
deriving DecidableEq, Repr

def applyAutoPlayOp (c : AutoPlayState) : AutoPlayOp → AutoPlayState
  | AutoPlayOp.start => startAutoPlay c
  | AutoPlayOp.stop => stopAutoPlay c

def runAutoPlayOps (c : AutoPlayState) (ops : List AutoPlayOp) : AutoPlayState :=
  ops.foldl applyAutoPlayOp c

/-- The timer invariant: the active interval table is exactly the content of
`this.autoPlayInterval`, and any held id was handed out earlier (so it is
below `nextId`). -/
def timersInv (c : AutoPlayState) : Prop :=
  match c.autoPlayInterval with
  | some id => c.sys.active = [id] ∧ id < c.sys.nextId
  | none => c.sys.active = []

/-! ### Safe geometry query (Utils.getBoundingRect, lines 68-75)

`element.getBoundingClientRect()` either returns a rectangle or throws; the
element is abstracted by that outcome (`Except`).  The catch branch logs one
`console.warn` and returns null. -/

structure Rect where
  left : ℚ
  top : ℚ
  width : ℚ
  height : ℚ
deriving DecidableEq, Repr

/-- Utils.getBoundingRect: the returned rect (null on failure) together with
the warnings logged. -/
def getBoundingRect (geom : Except String Rect) : Option Rect × List String :=
  match geom with
  | Except.ok r => (some r, [])
  | Except.error e => (none, ["Error getting bounding rect: " ++ e])

/-! ### Particle burst (AnimationController.createParticleAnimation,
lines 187-209, and createParticle, lines 218-244)

A particle is attached to `document.body` right after creation; its assigned
radial angle is `(360 / COUNT) * index` (the randomly jittered distance and
the cosine/sine terminal position are assigned one frame later and are purely
visual, so they are not tracked).  The scheduled cleanup detaches every
particle of the burst after PARTICLE_LIFE ms, each removal guarded by
`if (particle.parentNode)`. -/

structure Particle where
  x : ℚ
  y : ℚ
  angle : ℚ
  attached : Bool
deriving DecidableEq, Repr

/-- createParticle (lines 218-244): positioned at the burst center, appended
to the body by the caller right away (line 198). -/
def createParticle (centerX centerY : ℚ) (index : Nat) : Particle :=
  ⟨centerX, centerY, (360 / (PARTICLES_COUNT : ℚ)) * index, true⟩

/-- createParticleAnimation (lines 187-209): the spawned particles, the
scheduled cleanup delay (none when the geometry query failed and the function
returned early), and the warnings logged. -/
def createParticleAnimation (geom : Except String Rect) :
    List Particle × Option Nat × List String :=
  match getBoundingRect geom with
  | (none, w) => ([], none, w)
  | (some rect, w) =>
    let centerX := rect.left + rect.width / 2
    let centerY := rect.top + rect.height / 2
    ((List.range PARTICLES_COUNT).map (fun i => createParticle centerX centerY i),
      some PARTICLE_LIFE, w)

/-- The cleanup scheduled at line 202: for each particle of the burst,
`if (particle.parentNode) particle.parentNode.removeChild(particle)`.  It is
applied to whatever attachment states the particles have when the timer
fires. -/
def particleCleanup (ps : List Particle) : List Particle :=
  ps.map (fun p => if p.attached then { p with attached := false } else p)

/-! ### Ripple burst (AnimationController.createRippleEffect, lines 251-288)

The button's inline style record tracks the two properties the routine
touches, plus whether the ripple child is attached.  The scheduled cleanup
closure captures only `originalPosition`. -/

structure MouseEvent where
  clientX : ℚ
  clientY : ℚ
deriving DecidableEq, Repr

structure ButtonDom where
  position : String
  overflow : String
  rippleAttached : Bool
deriving DecidableEq, Repr

structure Ripple where
  size : ℚ
  x : ℚ
  y : ℚ
deriving DecidableEq, Repr

/-- createRippleEffect, synchronous part (lines 251-280): returns the mutated
button, the created ripple with its scheduled cleanup `(delay,
originalPosition)` (none when the geometry query failed), and the warnings
logged. -/
def createRippleEffect (geom : Except String Rect) (event : MouseEvent)
    (button : ButtonDom) :
    ButtonDom × Option (Ripple × Nat × String) × List String :=
  match getBoundingRect geom with
  | (none, w) => (button, none, w)
  | (some rect, w) =>
    let size := max rect.width rect.height
    let x := event.clientX - rect.left - size / 2
    let y := event.clientY - rect.top - size / 2
    let originalPosition := button.position
    (⟨"relative", "hidden", true⟩,
      some (⟨size, x, y⟩, RIPPLE_LIFE, originalPosition), w)

/-- The cleanup scheduled at line 282: detach the ripple (guarded by
`if (ripple.parentNode)`) and restore `button.style.position` to the captured
original value.  The overflow property is not touched. -/
def rippleCleanup (originalPosition : String) (button : ButtonDom) : ButtonDom :=
  { button with rippleAttached := false, position := originalPosition }

/-! ### Image fallback (ImageErrorHandler.createFallbackElement, lines 527-560)

JS `String.prototype.includes` is substring containment;
`String.prototype.toLowerCase` is modelled by ASCII lowercasing (all keyword
matching in the source is over ASCII). -/

def charListIsPre : List Char → List Char → Bool
  | [], _ => true
  | _ :: _, [] => false
  | a :: ps, b :: ls => a == b && charListIsPre ps ls

def charListHasSub (sub : List Char) : List Char → Bool
  | [] => charListIsPre sub []
  | c :: rest => charListIsPre sub (c :: rest) || charListHasSub sub rest

/-- JS `s.includes(sub)`. -/
def jsIncludes (s sub : String) : Bool :=
  charListHasSub sub.toList s.toList

/-- JS `s.startsWith(p)`. -/
def jsStartsWith (s p : String) : Bool :=
  charListIsPre p.toList s.toList

/-- JS `s.toLowerCase()` (ASCII fragment). -/
def jsToLowerCase (s : String) : String :=
  String.mk (s.toList.map Char.toLower)

/-- createFallbackElement: the className of the placeholder div created for
the failed image's alt text, or none when no keyword matches (the function
returns null and handleImageError keeps the broken image, lines 515-520).
`'product-card__placeholder'` is the floating-emoji card placeholder;
`'image-fallback'` is the gradient-background banner placeholder. -/
def createFallbackElement (alt : String) : Option String :=
  let a := jsToLowerCase alt
  if jsIncludes a "truffle" || jsIncludes a "praline" || jsIncludes a "bark" then
    some "product-card__placeholder"
  else if jsIncludes a "hero" || jsIncludes a "chocolate" || jsIncludes a "artisan" then
    some "image-fallback"
  else
    none

/-! ### Navigation smooth scrolling (NavigationController.setupSmoothScrolling,
lines 611-624)

The document is abstracted as a query function from a CSS selector to the
element it resolves to (none when nothing matches).  The handler returns the
element scrolled to, or none when it let the default action proceed or the
target was not found. -/

def navLinkClick (query : String → Option String) (href : String) : Option String :=
  if jsStartsWith href "#" then
    query (if href = "#main-content" then ".hero" else href)
  else
    none

/-- A sample document for the navigation witness: it has a hero section, an
about section, and an element literally matching the selector
"#main-content". -/
def sampleQuery : String → Option String := fun s =>
  if s = ".hero" then some "hero-section"
  else if s = "#main-content" then some "literal-main"
  else if s = "#about" then some "about-section"
  else none

/-! ### Theorems -/

lemma prevIdx_lt (count cur : Nat) (h1 : 0 < count) (h2 : cur < count) :
    prevIdx count cur < count := by
  unfold prevIdx; split <;> omega

lemma nextIdx_lt (count cur : Nat) (h1 : 0 < count) (h2 : cur < count) :
    nextIdx count cur < count := by
  unfold nextIdx; split <;> omega

lemma prevInt_eq (count cur : Nat) (h1 : 0 < count) (h2 : cur < count) :
    ((cur : Int) - 1 + (count : Int)) % (count : Int) = (prevIdx count cur : Int) := by
  unfold prevIdx
  by_cases h : cur = 0
  · subst h
    simp only [if_true, Nat.cast_zero, zero_sub]
    rw [Int.emod_eq_of_lt (by omega) (by omega)]
    omega
  · rw [if_neg h]
    have hc : ((cur : Int) - 1 + (count : Int)) = ((cur - 1 : Nat) : Int) + (count : Int) * 1 := by
      push_cast [Nat.one_le_iff_ne_zero.mpr h]
      ring
    rw [hc, Int.add_mul_emod_self_left, Int.emod_eq_of_lt (by omega) (by omega)]

lemma nextInt_eq (count cur : Nat) (h1 : 0 < count) (h2 : cur < count) :
    ((cur : Int) + 1) % (count : Int) = (nextIdx count cur : Int) := by
  unfold nextIdx
  by_cases h : cur + 1 = count
  · rw [if_pos h]
    have hc : ((cur : Int) + 1) = (count : Int) := by omega
    rw [hc]
    simp
  · rw [if_neg h, Int.emod_eq_of_lt (by omega) (by omega)]
    omega

/-- In-range characterization of `slideClasses` by the Nat-level closed forms. -/
lemma slideClasses_eq (count cur idx : Nat) (h1 : 0 < count) (h2 : cur < count) :
    slideClasses count cur idx =
      if idx = cur then ["active"]
      else if idx = prevIdx count cur then ["prev"]
      else if idx = nextIdx count cur then ["next"]
      else [] := by
  unfold slideClasses
  rw [prevInt_eq count cur h1 h2, nextInt_eq count cur h1 h2]
  norm_cast

/-- C2's invariant, proved for arbitrary start states so induction goes
through. -/
lemma runTransitions_lt (count : Nat) (h1 : 0 < count) :
    ∀ (ts : List Transition) (s : CarouselState),
      (∀ t ∈ ts, validTransition count t = true) →
      s.currentIndex < count →
      (runTransitions count s ts).currentIndex < count := by
  intro ts
  induction ts with
  | nil => intro s _ hs; exact hs
  | cons t rest ih =>
    intro s hv hs
    have hrest : ∀ t ∈ rest, validTransition count t = true := fun t ht =>
      hv t (List.mem_cons_of_mem _ ht)
    have hstep : (applyTransition count s t).currentIndex < count := by
      cases t with
      | goTo i =>
        have := hv (Transition.goTo i) (List.mem_cons_self _ _)
        simp only [validTransition, decide_eq_true_eq] at this
        exact this
      | advance =>
        simp only [applyTransition, nextSlide]
        exact Nat.mod_lt _ h1
    exact ih (applyTransition count s t) hrest hstep

lemma prevIdx_ne_cur (count cur : Nat) (h1 : 2 ≤ count) (h2 : cur < count) :
    prevIdx count cur ≠ cur := by
  unfold prevIdx; split <;> omega

lemma nextIdx_ne_cur (count cur : Nat) (h1 : 2 ≤ count) (h2 : cur < count) :
    nextIdx count cur ≠ cur := by
  unfold nextIdx; split <;> omega

lemma prevIdx_ne_nextIdx (count cur : Nat) (h1 : 3 ≤ count) (h2 : cur < count) :
    prevIdx count cur ≠ nextIdx count cur := by
  unfold prevIdx nextIdx; split <;> split <;> omega

lemma mem_slideClasses_active (count cur idx : Nat) (h1 : 0 < count) (h2 : cur < count) :
    "active" ∈ slideClasses count cur idx ↔ idx = cur := by
  rw [slideClasses_eq count cur idx h1 h2]
  by_cases ha : idx = cur
  · simp [ha]
  · rw [if_neg ha]
    constructor
    · intro hmem
      split_ifs at hmem <;> simp_all
    · intro h; exact absurd h ha

lemma mem_slideClasses_prev (count cur idx : Nat) (h1 : 0 < count) (h2 : cur < count) :
    "prev" ∈ slideClasses count cur idx ↔ idx ≠ cur ∧ idx = prevIdx count cur := by
  rw [slideClasses_eq count cur idx h1 h2]
  by_cases ha : idx = cur
  · simp [ha]
  · rw [if_neg ha]
    by_cases hb : idx = prevIdx count cur
    · rw [if_pos hb]
      constructor
      · intro _; exact ⟨ha, hb⟩
      · intro _; exact List.mem_singleton.mpr rfl
    · rw [if_neg hb]
      constructor
      · intro hmem
        split_ifs at hmem <;> simp_all
      · intro h; exact absurd h.2 hb

lemma mem_slideClasses_next (count cur idx : Nat) (h1 : 0 < count) (h2 : cur < count) :
    "next" ∈ slideClasses count cur idx ↔
      idx ≠ cur ∧ idx ≠ prevIdx count cur ∧ idx = nextIdx count cur := by
  rw [slideClasses_eq count cur idx h1 h2]
  by_cases ha : idx = cur
  · simp [ha]
  · rw [if_neg ha]
    by_cases hb : idx = prevIdx count cur
    · simp [hb, ha]
    · rw [if_neg hb]
      by_cases hc : idx = nextIdx count cur
      · rw [if_pos hc]
        constructor
        · intro _; exact ⟨ha, hb, hc⟩
        · intro _; exact List.mem_singleton.mpr rfl
      · rw [if_neg hc]
        constructor
        · intro hmem; simp_all
        · intro h; exact absurd h.2.2 hc

/-- C1 as written fails on the degenerate slide counts: after the initial
render (empty transition sequence), with 2 slides the non-active slide
carries only "prev" and not "next", and with 1 slide the single slide
carries only "active", never "prev" or "next" (the `else if` chain in
updateCarousel assigns at most one class per slide). -/
theorem C1_counterexample :
    (runTransitions 2 initialState []).currentIndex = 0 ∧
    "active" ∈ slideClasses 2 0 0 ∧
    "prev" ∈ slideClasses 2 0 1 ∧
    ¬ "next" ∈ slideClasses 2 0 1 ∧
    (runTransitions 1 initialState []).currentIndex = 0 ∧
    ¬ "prev" ∈ slideClasses 1 0 0 ∧
    ¬ "next" ∈ slideClasses 1 0 0 := by
  decide

/-- C1 (amended): after any valid sequence of goToSlide/advance transitions
followed by the re-render pass, with `cur` the resulting index: for every
slide count ≥ 1 exactly one slide carries "active"; for count ≥ 3 exactly one
slide carries "prev", exactly one carries "next", and neither of those slides
is the "active" one; for count = 1 the single slide carries exactly
`["active"]`; for count = 2 the non-active slide carries exactly `["prev"]`
(the `prev` check precedes the `next` check, first match wins). -/
theorem C1_designations (count cur : Nat) (ts : List Transition)
    (h1 : 1 ≤ count)
    (hv : ∀ t ∈ ts, validTransition count t = true)
    (hcur : cur = (runTransitions count initialState ts).currentIndex) :
    (∃! i, i < count ∧ "active" ∈ slideClasses count cur i) ∧
    (3 ≤ count →
      (∃! i, i < count ∧ "prev" ∈ slideClasses count cur i) ∧
      (∃! i, i < count ∧ "next" ∈ slideClasses count cur i) ∧
      (∀ i, i < count → "prev" ∈ slideClasses count cur i →
        ¬ "active" ∈ slideClasses count cur i) ∧
      (∀ i, i < count → "next" ∈ slideClasses count cur i →
        ¬ "active" ∈ slideClasses count cur i)) ∧
    (count = 1 → updateCarousel count cur = [["active"]]) ∧
    (count = 2 → ∀ i, i < count → i ≠ cur → slideClasses count cur i = ["prev"]) := by
  have h2 : cur < count := by
    rw [hcur]
    exact runTransitions_lt count h1 ts initialState hv h1
  refine ⟨?_, ?_, ?_, ?_⟩
  · exact ⟨cur, ⟨h2, (mem_slideClasses_active count cur cur h1 h2).mpr rfl⟩,
      fun j hj => (mem_slideClasses_active count cur j h1 h2).mp hj.2⟩
  · intro h3
    refine ⟨⟨prevIdx count cur,
        ⟨prevIdx_lt count cur h1 h2,
         (mem_slideClasses_prev count cur _ h1 h2).mpr
           ⟨prevIdx_ne_cur count cur (by omega) h2, rfl⟩⟩,
        fun j hj => ((mem_slideClasses_prev count cur j h1 h2).mp hj.2).2⟩,
      ⟨nextIdx count cur,
        ⟨nextIdx_lt count cur h1 h2,
         (mem_slideClasses_next count cur _ h1 h2).mpr
           ⟨nextIdx_ne_cur count cur (by omega) h2,
            (prevIdx_ne_nextIdx count cur h3 h2).symm, rfl⟩⟩,
        fun j hj => ((mem_slideClasses_next count cur j h1 h2).mp hj.2).2.2⟩,
      ?_, ?_⟩
    · intro i hi hprev hact
      exact ((mem_slideClasses_prev count cur i h1 h2).mp hprev).1
        ((mem_slideClasses_active count cur i h1 h2).mp hact)
    · intro i hi hnext hact
      exact ((mem_slideClasses_next count cur i h1 h2).mp hnext).1
        ((mem_slideClasses_active count cur i h1 h2).mp hact)
  · intro hc
    subst hc
    have : cur = 0 := by omega
    subst this
    decide
  · intro hc
    subst hc
    intro i hi hne
    have : (cur = 0 ∧ i = 1) ∨ (cur = 1 ∧ i = 0) := by omega
    rcases this with ⟨hcu, hiu⟩ | ⟨hcu, hiu⟩ <;> subst hcu <;> subst hiu <;> decide

/-- C1 witness: count 3, transitions [advance], resulting index 1. -/
theorem C1_witness :
    (∃! i, i < 3 ∧ "active" ∈ slideClasses 3 1 i) ∧
    (3 ≤ 3 →
      (∃! i, i < 3 ∧ "prev" ∈ slideClasses 3 1 i) ∧
      (∃! i, i < 3 ∧ "next" ∈ slideClasses 3 1 i) ∧
      (∀ i, i < 3 → "prev" ∈ slideClasses 3 1 i → ¬ "active" ∈ slideClasses 3 1 i) ∧
      (∀ i, i < 3 → "next" ∈ slideClasses 3 1 i → ¬ "active" ∈ slideClasses 3 1 i)) ∧
    (3 = 1 → updateCarousel 3 1 = [["active"]]) ∧
    (3 = 2 → ∀ i, i < 3 → i ≠ 1 → slideClasses 3 1 i = ["prev"]) :=
  C1_designations 3 1 [Transition.advance] (by decide) (by decide) (by decide)

/-- C2: for every slide count ≥ 1 and every sequence of transitions the
machine can actually perform (goToSlide arguments are indicator indices,
which are index-aligned with the slides), the current index stays in
`[0, count)`; the lower bound is inherent in the `Nat` index. -/
theorem C2_index_in_range (count : Nat) (ts : List Transition)
    (h1 : 1 ≤ count)
    (hv : ∀ t ∈ ts, validTransition count t = true) :
    (runTransitions count initialState ts).currentIndex < count :=
  runTransitions_lt count h1 ts initialState hv h1

/-- C2 witness: count 3, transitions [goTo 2, advance]. -/
theorem C2_witness :
    (runTransitions 3 initialState [Transition.goTo 2, Transition.advance]).currentIndex < 3 :=
  C2_index_in_range 3 [Transition.goTo 2, Transition.advance] (by decide) (by decide)

lemma runTransitions_replicate_advance (count : Nat) (h1 : 0 < count) :
    ∀ (k j : Nat), j < count →
      runTransitions count ⟨j⟩ (List.replicate k Transition.advance) =
        ⟨(j + k) % count⟩ := by
  intro k
  induction k with
  | zero =>
    intro j hj
    simp [runTransitions, Nat.mod_eq_of_lt hj]
  | succ k ih =>
    intro j hj
    rw [List.replicate_succ]
    have hstep :
        runTransitions count ⟨j⟩ (Transition.advance :: List.replicate k Transition.advance) =
          runTransitions count ⟨(j + 1) % count⟩ (List.replicate k Transition.advance) := rfl
    rw [hstep, ih ((j + 1) % count) (Nat.mod_lt _ h1)]
    congr 1
    rw [Nat.mod_add_mod]
    congr 1
    omega

/-- C3: for every slide count ≥ 1 and every starting index in `[0, count)`,
applying `advance` exactly `count` times returns the index to its starting
value. -/
theorem C3_cyclic_closure (count start : Nat) (h1 : 1 ≤ count) (h2 : start < count) :
    runTransitions count ⟨start⟩ (List.replicate count Transition.advance) = ⟨start⟩ := by
  rw [runTransitions_replicate_advance count h1 count start h2, Nat.add_mod_right,
    Nat.mod_eq_of_lt h2]

/-- C3 witness: count 3, start 1. -/
theorem C3_witness :
    runTransitions 3 ⟨1⟩ (List.replicate 3 Transition.advance) = ⟨1⟩ :=
  C3_cyclic_closure 3 1 (by decide) (by decide)

lemma timersInv_stop (c : AutoPlayState) (h : timersInv c) :
    timersInv (stopAutoPlay c) := by
  unfold timersInv stopAutoPlay at *
  cases hc : c.autoPlayInterval with
  | none => simpa [hc] using h
  | some id =>
    rw [hc] at h
    simp [hc, clearIntervalSys, h.1, List.erase_cons]

lemma stopAutoPlay_active (c : AutoPlayState) (h : timersInv c) :
    (stopAutoPlay c).sys.active = [] := by
  have h1 := timersInv_stop c h
  unfold timersInv stopAutoPlay at h1
  unfold stopAutoPlay
  cases hc : c.autoPlayInterval with
  | none =>
    unfold timersInv at h
    rw [hc] at h
    simpa [hc] using h
  | some id =>
    rw [hc] at h1
    simpa [hc] using h1

lemma stopAutoPlay_nextId (c : AutoPlayState) :
    (stopAutoPlay c).sys.nextId = c.sys.nextId := by
  unfold stopAutoPlay
  cases c.autoPlayInterval <;> rfl

lemma startAutoPlay_active (c : AutoPlayState) (h : timersInv c) :
    (startAutoPlay c).sys.active = [(stopAutoPlay c).sys.nextId] := by
  unfold startAutoPlay setIntervalSys
  simp [stopAutoPlay_active c h]

lemma timersInv_start (c : AutoPlayState) (h : timersInv c) :
    timersInv (startAutoPlay c) := by
  have hact := startAutoPlay_active c h
  have hfld : (startAutoPlay c).autoPlayInterval = some (stopAutoPlay c).sys.nextId := rfl
  have hnext : (startAutoPlay c).sys.nextId = (stopAutoPlay c).sys.nextId + 1 := rfl
  unfold timersInv
  rw [hfld, hact, hnext]
  exact ⟨rfl, Nat.lt_succ_self _⟩

lemma timersInv_run (ops : List AutoPlayOp) :
    ∀ (c : AutoPlayState), timersInv c → timersInv (runAutoPlayOps c ops) := by
  induction ops with
  | nil => intro c h; exact h
  | cons op rest ih =>
    intro c h
    refine ih (applyAutoPlayOp c op) ?_
    cases op with
    | start => exact timersInv_start c h
    | stop => exact timersInv_stop c h

lemma timersInv_initial : timersInv initialAutoPlay := by
  unfold timersInv initialAutoPlay
  rfl

lemma timersInv_length (c : AutoPlayState) (h : timersInv c) :
    c.sys.active.length ≤ 1 := by
  unfold timersInv at h
  cases hc : c.autoPlayInterval with
  | none => rw [hc] at h; simp [h]
  | some id => rw [hc] at h; simp [h.1]

lemma startAutoPlay_singleton (c : AutoPlayState) (h : timersInv c) :
    (startAutoPlay c).sys.active.length = 1 := by
  rw [startAutoPlay_active c h]
  rfl

lemma startAutoPlay_clears (c : AutoPlayState) (h : timersInv c) (id : Nat)
    (hid : c.autoPlayInterval = some id) :
    ¬ id ∈ (startAutoPlay c).sys.active := by
  rw [startAutoPlay_active c h, stopAutoPlay_nextId c]
  have hlt : id < c.sys.nextId := by
    unfold timersInv at h
    rw [hid] at h
    exact h.2
  simp only [List.mem_singleton]
  omega

/-- C4: from the initial state, after any sequence of start/stop auto-advance
operations at most one interval timer is active; starting auto-advance on any
reachable state yields exactly one active timer; and when a timer was running,
starting again first clears it — the old timer id is no longer active
afterwards. -/
theorem C4_single_timer (ops : List AutoPlayOp) :
    (runAutoPlayOps initialAutoPlay ops).sys.active.length ≤ 1 ∧
    (startAutoPlay (runAutoPlayOps initialAutoPlay ops)).sys.active.length = 1 ∧
    (∀ id, (runAutoPlayOps initialAutoPlay ops).autoPlayInterval = some id →
      ¬ id ∈ (startAutoPlay (runAutoPlayOps initialAutoPlay ops)).sys.active) := by
  have h := timersInv_run ops initialAutoPlay timersInv_initial
  exact ⟨timersInv_length _ h, startAutoPlay_singleton _ h,
    fun id hid => startAutoPlay_clears _ h id hid⟩

/-- C4 witness: after a single start, timer id 1 is running; starting again
leaves exactly one active timer and retires id 1. -/
theorem C4_witness :
    (runAutoPlayOps initialAutoPlay [AutoPlayOp.start]).sys.active.length ≤ 1 ∧
    (startAutoPlay (runAutoPlayOps initialAutoPlay [AutoPlayOp.start])).sys.active.length = 1 ∧
    ¬ 1 ∈ (startAutoPlay (runAutoPlayOps initialAutoPlay [AutoPlayOp.start])).sys.active :=
  ⟨(C4_single_timer [AutoPlayOp.start]).1, (C4_single_timer [AutoPlayOp.start]).2.1,
    (C4_single_timer [AutoPlayOp.start]).2.2 1 (by decide)⟩

/-- C5: image-fallback selection checks the product-type keywords before the
brand keywords (first match wins: any alt whose lowercase form contains
"truffle", "praline" or "bark" gets the card placeholder regardless of brand
keywords), and on the three concrete alt texts: "Artisan Dark Chocolate
Truffle" yields the card placeholder, "Hero banner" the banner placeholder,
and "Logo" no replacement. -/
theorem C5_fallback_selection :
    (∀ alt : String,
      (jsIncludes (jsToLowerCase alt) "truffle" || jsIncludes (jsToLowerCase alt) "praline" ||
        jsIncludes (jsToLowerCase alt) "bark") = true →
      createFallbackElement alt = some "product-card__placeholder") ∧
    createFallbackElement "Artisan Dark Chocolate Truffle" = some "product-card__placeholder" ∧
    createFallbackElement "Hero banner" = some "image-fallback" ∧
    createFallbackElement "Logo" = none := by
  refine ⟨?_, by decide, by decide, by decide⟩
  intro alt h
  simp [createFallbackElement, h]

/-- C5 witness: alt text "Praline Box" matches a product-type keyword and
gets the card placeholder. -/
theorem C5_witness :
    createFallbackElement "Praline Box" = some "product-card__placeholder" :=
  C5_fallback_selection.1 "Praline Box" (by decide)

/-- C6: for every control and every prior positioning value (including ""),
the ripple burst forces position "relative" and overflow "hidden", attaches
the ripple, schedules the cleanup after RIPPLE_LIFE = 600 ms with the
original position captured, and the cleanup detaches the ripple and restores
the position to exactly its original value. -/
theorem C6_ripple_restores_position (button : ButtonDom) (rect : Rect) (event : MouseEvent) :
    (createRippleEffect (Except.ok rect) event button).1.position = "relative" ∧
    (createRippleEffect (Except.ok rect) event button).1.overflow = "hidden" ∧
    (createRippleEffect (Except.ok rect) event button).1.rippleAttached = true ∧
    (createRippleEffect (Except.ok rect) event button).2.1 =
      some (⟨max rect.width rect.height,
             event.clientX - rect.left - max rect.width rect.height / 2,
             event.clientY - rect.top - max rect.width rect.height / 2⟩,
            RIPPLE_LIFE, button.position) ∧
    RIPPLE_LIFE = 600 ∧
    (rippleCleanup button.position
      (createRippleEffect (Except.ok rect) event button).1).position = button.position ∧
    (rippleCleanup button.position
      (createRippleEffect (Except.ok rect) event button).1).rippleAttached = false :=
  ⟨rfl, rfl, rfl, rfl, rfl, rfl, rfl⟩

/-- C7: a particle burst on an element whose geometry is readable spawns
exactly 8 particles, all attached at the element's center, with cleanup
scheduled after PARTICLE_LIFE = 1000 ms; and the cleanup detaches every
particle of a burst no matter what attachment state each is in when the
timer fires. -/
theorem C7_particle_burst (rect : Rect) (ps : List Particle) :
    (createParticleAnimation (Except.ok rect)).1.length = 8 ∧
    (createParticleAnimation (Except.ok rect)).2.1 = some 1000 ∧
    ((createParticleAnimation (Except.ok rect)).1.all (fun p =>
      p.attached && decide (p.x = rect.left + rect.width / 2) &&
      decide (p.y = rect.top + rect.height / 2))) = true ∧
    ((particleCleanup ps).all (fun p => !p.attached)) = true := by
  refine ⟨?_, rfl, ?_, ?_⟩
  · simp [createParticleAnimation, getBoundingRect, PARTICLES_COUNT]
  · simp only [createParticleAnimation, getBoundingRect, List.all_eq_true]
    intro p hp
    simp only [List.mem_map, List.mem_range] at hp
    obtain ⟨i, _, rfl⟩ := hp
    simp [createParticle]
  · simp only [particleCleanup, List.all_eq_true]
    intro p hp
    simp only [List.mem_map] at hp
    obtain ⟨q, _, rfl⟩ := hp
    by_cases h : q.attached = true
    · simp [h]
    · simp [h]

/-- C8: a navigation-link click on href "#main-content" queries the document
for the hero section selector ".hero" (so with a hero present it scrolls
there, independently of any element literally matching "#main-content"), and
every other in-page anchor href resolves through its own selector. -/
theorem C8_main_content_redirect (query : String → Option String) :
    navLinkClick query "#main-content" = query ".hero" ∧
    (∀ href : String, jsStartsWith href "#" = true → ¬ href = "#main-content" →
      navLinkClick query href = query href) := by
  constructor
  · unfold navLinkClick
    rw [if_pos (by decide), if_pos (by decide)]
  · intro href h1 h2
    unfold navLinkClick
    rw [if_pos h1, if_neg h2]

/-- C8 witness: in a document having a hero section, an about section and an
element literally matching "#main-content", the "#main-content" link scrolls
to the hero section and the "#about" link to the about section. -/
theorem C8_witness :
    navLinkClick sampleQuery "#main-content" = some "hero-section" ∧
    navLinkClick sampleQuery "#about" = some "about-section" :=
  ⟨((C8_main_content_redirect sampleQuery).1).trans (by decide),
   ((C8_main_content_redirect sampleQuery).2 "#about" (by decide) (by decide)).trans (by decide)⟩

/-- C9: when the geometry query throws, the failure is caught: exactly one
warning is logged and null is returned; a particle burst then creates no
entities and schedules nothing; a ripple burst leaves the button untouched
and creates nothing.  All three modelled routines are total functions, i.e.
no error escapes. -/
theorem C9_geometry_failure (err : String) (event : MouseEvent) (button : ButtonDom) :
    getBoundingRect (Except.error err) =
      (none, ["Error getting bounding rect: " ++ err]) ∧
    createParticleAnimation (Except.error err) =
      ([], none, ["Error getting bounding rect: " ++ err]) ∧
    createRippleEffect (Except.error err) event button =
      (button, none, ["Error getting bounding rect: " ++ err]) :=
  ⟨rfl, rfl, rfl⟩

/-- C10: after the ripple cleanup runs, the position style is restored to its
original value but the overflow style remains "hidden", for every control and
every original overflow value. -/
theorem C10_overflow_stays_hidden (button : ButtonDom) (rect : Rect) (event : MouseEvent) :
    (rippleCleanup button.position
      (createRippleEffect (Except.ok rect) event button).1).position = button.position ∧
    (rippleCleanup button.position
      (createRippleEffect (Except.ok rect) event button).1).overflow = "hidden" :=
  ⟨rfl, rfl⟩

end ChocoCraft
